import Mathlib

/-
Verification of the ENDF-6 decoding core of endf-python.

The development shallowly embeds the two source modules

  * src/endfpy/endf.py  (record dispatch, MF=1/451 header, MF=3/4/5 readers,
                         material segmentation, get_evaluations)
  * src/endfpy/mf6.py   (parse_mf6 and the per-LAW product distributions)

as executable Lean functions.  Python floats are modelled as rationals,
Python ints as integers, fallible code returns Except.  The record decoders
of records.py and the six energy-law collaborators of energy_distribution.py
are not part of the given sources; they are modelled from the specification
and carry doc comments saying so.
-/

/-- Python float floor division a // b, used by divmod; both operands and the
result are floats in the source, hence rationals here. -/
def pyfloordiv (a b : ℚ) : ℚ := ((Int.floor (a / b) : ℤ) : ℚ)

/-- Python float modulo a % b as used by divmod. -/
def pymod (a b : ℚ) : ℚ := a - b * pyfloordiv a b

/-- Python int(x) applied to a float: truncation toward zero. -/
def pytrunc (q : ℚ) : ℤ := if q < 0 then -(Int.floor (-q)) else Int.floor q

/-- Python string slice s[a:b] (0-based, b exclusive, tolerant of short
strings), used for the fixed character ranges of the MF=1/451 text records. -/
def pyslice (s : String) (a b : ℕ) : String := ((s.toList.drop a).take (b - a)).asString

/-- Errors the Python source can raise while decoding.  fuelOut is the
bookkeeping value of the loop bound used to model Python while loops; it
cannot occur when the bound exceeds the number of remaining lines. -/
inductive Err where
  | valueError     -- int()/float() failure, or a record read past the data
  | keyError       -- missing dict key: unknown sublibrary, or missing (1,451)
  | nameError      -- use of the unbound local dist in _read_mf5
  | assertionError -- the assert on the format version in _read_mf1_mt451
  | reshapeError   -- numpy reshape mismatch in ContinuumEnergyAngle
  | fuelOut
  deriving DecidableEq

deriving instance DecidableEq for Except

/-- Modelled from the spec: records.py is not among the given sources.  One
80-column line as the record decoder sees it, with the six 11-character
fields of a HEAD/CONT-shaped line already decoded (two floats, four ints),
a data line decoded to its list of numeric values, and a text line kept as
its 66-character payload.  The numeric field decoder itself (spec section
4.1) is outside every claim and is therefore absorbed into this type. -/
inductive SrcLine where
  | ctrl (c1 c2 : ℚ) (l1 l2 n1 n2 : ℤ)
  | data (vals : List ℚ)
  | text (s : String)
  deriving DecidableEq

/-- The six decoded fields of a HEAD or CONT record. -/
structure CtrlItems where
  c1 : ℚ
  c2 : ℚ
  l1 : ℤ
  l2 : ℤ
  n1 : ℤ
  n2 : ℤ
  deriving DecidableEq

/-- The four control fields returned for a TAB1 record (the shape every call
site of get_tab1_record destructures). -/
structure Params4 where
  c1 : ℚ
  c2 : ℚ
  l1 : ℤ
  l2 : ℤ
  deriving DecidableEq

/-- A decoded TAB1 record: region table (kept as the raw interleaved
breakpoint/interpolation-law numbers) and the tabulated x and y sequences. -/
structure Tab1 where
  NR : ℤ
  NP : ℤ
  breakpoints : List ℚ
  x : List ℚ
  y : List ℚ
  deriving DecidableEq

/-- Modelled from the spec: read one CONT record (one line, six fields).
With skip_c the two float fields are not decoded and read as zero (used for
the reaction-index lines of MF=1/451). -/
def get_cont_record (skip_c : Bool) : List SrcLine → Except Err (CtrlItems × List SrcLine)
  | .ctrl c1 c2 l1 l2 n1 n2 :: rest =>
      .ok (if skip_c then ⟨0, 0, l1, l2, n1, n2⟩ else ⟨c1, c2, l1, l2, n1, n2⟩, rest)
  | _ => .error .valueError

/-- Modelled from the spec: read one HEAD record (same six-field shape as a
CONT record, first line of a section). -/
def get_head_record (fo : List SrcLine) : Except Err (CtrlItems × List SrcLine) :=
  get_cont_record false fo

/-- Modelled from the spec: read one TEXT record (one line, returned as its
fixed-width text payload). -/
def get_text_record : List SrcLine → Except Err (String × List SrcLine)
  | .text s :: rest => .ok (s, rest)
  | _ => .error .valueError

/-- Modelled from the spec: consume exactly k value lines and concatenate
their numeric fields in row-major order. -/
def read_data_lines : ℕ → List SrcLine → Except Err (List ℚ × List SrcLine)
  | 0, fo => .ok ([], fo)
  | k+1, .data vs :: rest => do
      let (tail, fo) ← read_data_lines k rest
      .ok (vs ++ tail, fo)
  | _+1, _ => .error .valueError

/-- Modelled from the spec: read a LIST record: a CONT-shaped control line
whose fifth field is the value count N, then ceil(N/6) value lines, six
values per line, trailing padding slots of the last line ignored. -/
def get_list_record (fo : List SrcLine) : Except Err (CtrlItems × List ℚ × List SrcLine) := do
  let (items, fo) ← get_head_record fo
  let NPL := items.n1.toNat
  let (vals, fo) ← read_data_lines ((NPL + 5) / 6) fo
  .ok (items, vals.take NPL, fo)

/-- Modelled from the spec: read a TAB1 record: a control line carrying the
region count NR and point count NP, ceil(NR/3) lines of (boundary, law)
pairs, then ceil(NP/3) lines of (x, y) pairs.  The four non-count control
fields are returned separately, matching every call site of the source. -/
def get_tab1_record (fo : List SrcLine) : Except Err (Params4 × Tab1 × List SrcLine) := do
  let (items, fo) ← get_head_record fo
  let NR := items.n1.toNat
  let NP := items.n2.toNat
  let (rvals, fo) ← read_data_lines ((NR + 2) / 3) fo
  let (pvals, fo) ← read_data_lines ((NP + 2) / 3) fo
  let pairs := pvals.take (2 * NP)
  let xs := (List.range NP).map fun i => pairs.getD (2 * i) 0
  let ys := (List.range NP).map fun i => pairs.getD (2 * i + 1) 0
  .ok (⟨items.c1, items.c2, items.l1, items.l2⟩,
       ⟨items.n1, items.n2, rvals.take (2 * NR), xs, ys⟩, fo)

/-- Modelled from the spec: read a TAB2 record: the control-line and
region-table phases of TAB1 with no value table; the full six control
fields are returned (the callers read the sub-record count from the sixth). -/
def get_tab2_record (fo : List SrcLine) : Except Err (CtrlItems × List ℚ × List SrcLine) := do
  let (items, fo) ← get_head_record fo
  let NR := items.n1.toNat
  let (rvals, fo) ← read_data_lines ((NR + 2) / 3) fo
  .ok (items, rvals.take (2 * NR), fo)

/-
Embedding of src/endfpy/mf6.py.
-/

/-- One energy point of a LAW=1 continuum energy-angle distribution
(mf6.py, ContinuumEnergyAngle.dict_from_endf loop body). -/
structure CEAPoint where
  ND : ℤ
  NA : ℤ
  NW : ℤ
  NEP : ℤ
  Eprime : List ℚ
  b : List (List ℚ)
  deriving DecidableEq

/-- Result dict of ContinuumEnergyAngle.dict_from_endf. -/
structure CEAData where
  LANG : ℤ
  LEP : ℤ
  NR : ℤ
  NE : ℤ
  E_int : List ℚ
  E : List ℚ
  distribution : List CEAPoint
  deriving DecidableEq

/-- One energy point of a LAW=2 discrete two-body distribution
(mf6.py, DiscreteTwoBodyScattering.dict_from_endf loop body). -/
structure DTBPoint where
  LANG : ℤ
  NW : ℤ
  NL : ℤ
  deriving DecidableEq

/-- The dict DiscreteTwoBodyScattering.dict_from_endf builds (and then
fails to return).  The A_l key is written once per energy point at the top
level of the dict, so only the last point's coefficient list survives; it
is absent when there is no energy point. -/
structure DTBData where
  NR : ℤ
  NE : ℤ
  E_int : List ℚ
  E : List ℚ
  A_l : Option (List ℚ)
  distribution : List DTBPoint
  deriving DecidableEq

/-- Value stored under the distribution key of an MF=6 product, one
constructor per LAW branch of parse_mf6 that stores anything.  The LAW=5
and LAW=7 stubs store an empty dict; the LAW=2 branch stores whatever
DiscreteTwoBodyScattering.dict_from_endf returns (an Option, because that
method has no return statement). -/
inductive PDist where
  | continuum (d : CEAData)
  | discreteTwoBody (d : Option DTBData)
  | chargedParticleElastic
  | nbody (APSX : ℚ) (NPSX : ℤ)
  | labAngleEnergy
  deriving DecidableEq

/-- One product entry of parse_mf6.  distribution is none when the loop
stores no such key (LAW < 0, LAW 0/3/4, and any unrecognized LAW). -/
structure MF6Product where
  ZAP : ℤ
  AWP : ℚ
  LIP : ℤ
  LAW : ℤ
  y_i : Tab1
  distribution : Option PDist
  deriving DecidableEq

/-- Result dict of parse_mf6. -/
structure MF6Data where
  ZA : ℚ
  AWR : ℚ
  JP : ℤ
  LCT : ℤ
  NK : ℤ
  products : List MF6Product
  deriving DecidableEq

/-- Split a flat value list into rows of width w (the numpy reshape of
ContinuumEnergyAngle, with the row count as the recursion fuel). -/
def chunk_rows (w : ℕ) : ℕ → List ℚ → List (List ℚ)
  | 0, _ => []
  | n+1, vs => vs.take w :: chunk_rows w n (vs.drop w)

/-- Loop body of ContinuumEnergyAngle.dict_from_endf: one LIST record per
energy point, reshaped to NEP rows of NA + 2 values; the first column is
the outgoing-energy grid and the remaining columns the coefficients. -/
def cea_points : ℕ → List SrcLine → Except Err (List ℚ × List CEAPoint × List SrcLine)
  | 0, fo => .ok ([], [], fo)
  | k+1, fo => do
      let (items, values, fo) ← get_list_record fo
      if values.length = items.n2.toNat * (items.l2 + 2).toNat then do
        let rows := chunk_rows (items.l2 + 2).toNat items.n2.toNat values
        let pt : CEAPoint := ⟨items.l1, items.l2, items.n1, items.n2,
                              rows.map (fun r => r.headD 0), rows.map List.tail⟩
        let (Es, pts, fo) ← cea_points k fo
        .ok (items.c2 :: Es, pt :: pts, fo)
      else .error .reshapeError

/-- mf6.py, ContinuumEnergyAngle.dict_from_endf (LAW=1). -/
def ContinuumEnergyAngle_dict_from_endf (fo : List SrcLine) :
    Except Err (CEAData × List SrcLine) := do
  let (params, E_int, fo) ← get_tab2_record fo
  let (Es, pts, fo) ← cea_points params.n2.toNat fo
  .ok (⟨params.l1, params.l2, params.n1, params.n2, E_int, Es, pts⟩, fo)

/-- Loop body of DiscreteTwoBodyScattering.dict_from_endf: one LIST record
per energy point; E and the per-point dicts accumulate, while the A_l key
is overwritten each iteration so only the final values list is kept. -/
def dtb_points : ℕ → List SrcLine → Except Err ((List ℚ × List DTBPoint × Option (List ℚ)) × List SrcLine)
  | 0, fo => .ok (([], [], none), fo)
  | k+1, fo => do
      let (items, values, fo) ← get_list_record fo
      let pt : DTBPoint := ⟨items.l1, items.n1, items.n2⟩
      let ((Es, pts, lastv), fo) ← dtb_points k fo
      .ok ((items.c2 :: Es, pt :: pts, some (lastv.getD values)), fo)

/-- mf6.py, DiscreteTwoBodyScattering.dict_from_endf (LAW=2).  The Python
method builds its data dict and consumes the TAB2 and LIST records but
falls off the end without a return statement, so its value is None: the
first component of the result is always none. -/
def DiscreteTwoBodyScattering_dict_from_endf (fo : List SrcLine) :
    Except Err (Option DTBData × List SrcLine) := do
  let (params, E_int, fo) ← get_tab2_record fo
  let ((Es, pts, lastv), fo) ← dtb_points params.n2.toNat fo
  let _data : DTBData := ⟨params.n1, params.n2, E_int, Es, lastv, pts⟩
  .ok (none, fo)

/-- mf6.py, ChargedParticleElasticScattering.dict_from_endf (LAW=5): the
stub returns an empty dict and reads nothing from the record stream. -/
def ChargedParticleElasticScattering_dict_from_endf (fo : List SrcLine) :
    Except Err (Unit × List SrcLine) :=
  .ok ((), fo)

/-- mf6.py, NBodyPhaseSpace.dict_from_endf (LAW=6): one CONT record giving
the total mass APSX and the body count NPSX. -/
def NBodyPhaseSpace_dict_from_endf (fo : List SrcLine) :
    Except Err ((ℚ × ℤ) × List SrcLine) := do
  let (items, fo) ← get_cont_record false fo
  .ok ((items.c1, items.n2), fo)

/-- mf6.py, LaboratoryAngleEnergy.dict_from_endf (LAW=7): the stub returns
an empty dict and reads nothing from the record stream. -/
def LaboratoryAngleEnergy_dict_from_endf (fo : List SrcLine) :
    Except Err (Unit × List SrcLine) :=
  .ok ((), fo)

/-- Product loop of parse_mf6: for each of the NK products read the yield
TAB1, then dispatch on LAW exactly as the if/elif chain of the source does;
a LAW matching no branch stores no distribution and the loop continues. -/
def mf6_products : ℕ → List SrcLine → Except Err (List MF6Product × List SrcLine)
  | 0, fo => .ok ([], fo)
  | k+1, fo => do
      let (params, y_i, fo) ← get_tab1_record fo
      let ZAP := pytrunc params.c1
      let LAW := params.l2
      let (dist, fo) ←
        if LAW < 0 then .ok ((none : Option PDist), fo)
        else if LAW = 0 then .ok (none, fo)
        else if LAW = 1 then do
          let (d, fo) ← ContinuumEnergyAngle_dict_from_endf fo
          .ok (some (.continuum d), fo)
        else if LAW = 2 then do
          let (d, fo) ← DiscreteTwoBodyScattering_dict_from_endf fo
          .ok (some (.discreteTwoBody d), fo)
        else if LAW = 3 then .ok (none, fo)
        else if LAW = 4 then .ok (none, fo)
        else if LAW = 5 then do
          let (_, fo) ← ChargedParticleElasticScattering_dict_from_endf fo
          .ok (some .chargedParticleElastic, fo)
        else if LAW = 6 then do
          let (d, fo) ← NBodyPhaseSpace_dict_from_endf fo
          .ok (some (.nbody d.1 d.2), fo)
        else if LAW = 7 then do
          let (_, fo) ← LaboratoryAngleEnergy_dict_from_endf fo
          .ok (some .labAngleEnergy, fo)
        else .ok (none, fo)
      let p : MF6Product := ⟨ZAP, params.c2, params.l1, LAW, y_i, dist⟩
      let (ps, fo) ← mf6_products k fo
      .ok (p :: ps, fo)

/-- mf6.py, parse_mf6: HEAD record then the NK-product loop. -/
def parse_mf6 (fo : List SrcLine) : Except Err (MF6Data × List SrcLine) := do
  let (items, fo) ← get_head_record fo
  let (ps, fo) ← mf6_products items.n1.toNat fo
  .ok (⟨items.c1, items.c2, items.l1, items.l2, items.n1, ps⟩, fo)

/-
Embedding of src/endfpy/endf.py.
-/

/-- The _LIBRARY table of endf.py as a lookup; a code outside the table
yields none (the source catches the KeyError and falls back to Unknown). -/
def LIBRARY_lookup (n : ℤ) : Option String :=
  if n = 0 then some "ENDF/B" else if n = 1 then some "ENDF/A"
  else if n = 2 then some "JEFF" else if n = 3 then some "EFF"
  else if n = 4 then some "ENDF/B High Energy" else if n = 5 then some "CENDL"
  else if n = 6 then some "JENDL" else if n = 17 then some "TENDL"
  else if n = 18 then some "ROSFOND" else if n = 21 then some "SG-21"
  else if n = 31 then some "INDL/V" else if n = 32 then some "INDL/A"
  else if n = 33 then some "FENDL" else if n = 34 then some "IRDF"
  else if n = 35 then some "BROND" else if n = 36 then some "INGDB-90"
  else if n = 37 then some "FENDL/A" else if n = 41 then some "BROND"
  else none

/-- The _SUBLIBRARY table of endf.py as a lookup; a code outside the table
yields none (the source does not catch this KeyError, so it is fatal). -/
def SUBLIBRARY_lookup (n : ℤ) : Option String :=
  if n = 0 then some "Photo-nuclear data"
  else if n = 1 then some "Photo-induced fission product yields"
  else if n = 3 then some "Photo-atomic data"
  else if n = 4 then some "Radioactive decay data"
  else if n = 5 then some "Spontaneous fission product yields"
  else if n = 6 then some "Atomic relaxation data"
  else if n = 10 then some "Incident-neutron data"
  else if n = 11 then some "Neutron-induced fission product yields"
  else if n = 12 then some "Thermal neutron scattering data"
  else if n = 19 then some "Neutron standards"
  else if n = 113 then some "Electro-atomic data"
  else if n = 10010 then some "Incident-proton data"
  else if n = 10011 then some "Proton-induced fission product yields"
  else if n = 10020 then some "Incident-deuteron data"
  else if n = 10030 then some "Incident-triton data"
  else if n = 20030 then some "Incident-helion (3He) data"
  else if n = 20040 then some "Incident-alpha data"
  else none

/-- The target dict populated by _read_mf1_mt451.  atomic_number and
mass_number are the float results of divmod(ZA, 1000). -/
structure TargetInfo where
  atomic_number : ℚ
  mass_number : ℚ
  mass : ℚ
  fissionable : Bool
  excitation_energy : ℚ
  stable : Bool
  state : ℤ
  isomeric_state : ℤ
  temperature : ℚ
  zsymam : String
  deriving DecidableEq

/-- The info dict populated by _read_mf1_mt451.  The descriptive fields are
set only when at least five text records are present, hence Option. -/
structure EvalInfo where
  modification : ℤ
  format : ℤ
  library : String × ℤ × ℤ
  sublibrary : String
  energy_max : ℚ
  derived : Bool
  laboratory : Option String
  date : Option String
  author : Option String
  reference : Option String
  date_distribution : Option String
  date_release : Option String
  date_entry : Option String
  identifier : Option (List String)
  description : Option (List String)
  deriving DecidableEq

/-- Everything _read_mf1_mt451 stores on the evaluation object. -/
structure Mf1Result where
  target : TargetInfo
  info : EvalInfo
  projectile_mass : ℚ
  reaction_list : List (ℤ × ℤ × ℤ × ℤ)
  deriving DecidableEq

/-- The NWD text records of the MF=1/451 section, read one by one. -/
def read_text_records : ℕ → List SrcLine → Except Err (List String × List SrcLine)
  | 0, fo => .ok ([], fo)
  | k+1, fo => do
      let (t, fo) ← get_text_record fo
      let (ts, fo) ← read_text_records k fo
      .ok (t :: ts, fo)

/-- The NXC reaction-index records of the MF=1/451 section, each read with
skip_c and appended as (MF, MT, NC, MOD). -/
def read_reaction_list : ℕ → List SrcLine → Except Err (List (ℤ × ℤ × ℤ × ℤ) × List SrcLine)
  | 0, fo => .ok ([], fo)
  | k+1, fo => do
      let (items, fo) ← get_cont_record true fo
      let (rl, fo) ← read_reaction_list k fo
      .ok ((items.l1, items.l2, items.n1, items.n2) :: rl, fo)

/-- endf.py, Evaluation._read_mf1_mt451: HEAD record (target identity,
library lookup with Unknown fallback), control record 1 (excitation,
stability, state, isomeric state, format assertion, Am242m1 state fix),
control record 2 (projectile mass, fatal sublibrary lookup, version and
release), control record 3 (temperature, derived flag, NWD and NXC), the
NWD text records with the fixed character ranges when at least five are
present, and the NXC reaction-index records. -/
def read_mf1_mt451 (fo : List SrcLine) : Except Err (Mf1Result × List SrcLine) := do
  let (items, fo) ← get_head_record fo
  let Z := pyfloordiv items.c1 1000
  let A := pymod items.c1 1000
  let mass := items.c2
  let fissionable := items.l2 = 1
  let library := (LIBRARY_lookup items.n1).getD "Unknown"
  let modification := items.n2
  let (items1, fo) ← get_cont_record false fo
  let excitation_energy := items1.c1
  let stable := pytrunc items1.c2 = 0
  let state0 := items1.l1
  let m := items1.l2
  let format := items1.n2
  let _ ← (if format = 6 then .ok () else .error Err.assertionError : Except Err Unit)
  let state := if Z = 95 ∧ A = 242 ∧ m = 1 then 2 else state0
  let (items2, fo) ← get_cont_record false fo
  let projectile_mass := items2.c1
  let energy_max := items2.c2
  let library_release := items2.l1
  let sublibrary ← (match SUBLIBRARY_lookup items2.n1 with
    | some s => .ok s
    | none => .error Err.keyError : Except Err String)
  let library_version := items2.n2
  let (items3, fo) ← get_cont_record false fo
  let temperature := items3.c1
  let derived := 0 < items3.l1
  let NWD := items3.n1
  let NXC := items3.n2
  let (text, fo) ← read_text_records NWD.toNat fo
  let t0 := text.getD 0 ""
  let t1 := text.getD 1 ""
  let target : TargetInfo :=
    ⟨Z, A, mass, fissionable, excitation_energy, stable, state, m, temperature,
     if 5 ≤ text.length then pyslice t0 0 11 else "Unknown"⟩
  let info : EvalInfo :=
    if 5 ≤ text.length then
      ⟨modification, format, (library, library_version, library_release), sublibrary,
       energy_max, derived,
       some (pyslice t0 11 22), some (pyslice t0 22 32), some (pyslice t0 32 66),
       some (pyslice t1 1 22), some (pyslice t1 22 32), some (pyslice t1 33 43),
       some (pyslice t1 55 63), some ((text.drop 2).take 3), some (text.drop 5)⟩
    else
      ⟨modification, format, (library, library_version, library_release), sublibrary,
       energy_max, derived, none, none, none, none, none, none, none, none, none⟩
  let (reaction_list, fo) ← read_reaction_list NXC.toNat fo
  .ok (⟨target, info, projectile_mass, reaction_list⟩, fo)

/-- Cross-section entry of _read_mf3. -/
structure MF3Data where
  QM : ℚ
  QI : ℚ
  LR : ℤ
  sigma : Tab1
  deriving DecidableEq

/-- endf.py, Evaluation._read_mf3: for every stored section with MF=3, a
discarded HEAD record then the cross-section TAB1. -/
def read_mf3 : List ((ℤ × ℤ) × List SrcLine) → Except Err (List (ℤ × MF3Data))
  | [] => .ok []
  | ((mf, mt), txt) :: rest =>
      if mf = 3 then do
        let (_, fo) ← get_head_record txt
        let (params, xs, _) ← get_tab1_record fo
        let tail ← read_mf3 rest
        .ok ((mt, ⟨params.c1, params.c2, params.l2, xs⟩) :: tail)
      else read_mf3 rest

/-- The legendre block dict of _read_mf4.  T and LT are plain dict keys
written once per energy point, so they are absent for an empty point list
and otherwise hold the values of the last point read. -/
structure LegData where
  E_int : List ℚ
  T : Option ℚ
  LT : Option ℤ
  E : List ℚ
  a_l : List (List ℚ)
  deriving DecidableEq

/-- The tabulated block dict of _read_mf4, with the same overwriting T and
LT keys as the legendre block. -/
structure TabData where
  E_int : List ℚ
  T : Option ℚ
  LT : Option ℤ
  E : List ℚ
  mu : List Tab1
  deriving DecidableEq

/-- The angular-distribution dict of _read_mf4 for one MT: the LTT/LI/LCT
flags always, the legendre and tabulated blocks per the (LTT, LI) dispatch. -/
structure MF4Data where
  LTT : ℤ
  LI : ℤ
  LCT : ℤ
  legendre : Option LegData
  tabulated : Option TabData
  deriving DecidableEq

/-- Loop of legendre_data in _read_mf4: one LIST record per energy point;
the T and LT keys are overwritten on every iteration while E and a_l
accumulate in input order. -/
def legendre_loop : ℕ → List SrcLine → Option ℚ → Option ℤ → List ℚ → List (List ℚ) →
    Except Err ((Option ℚ × Option ℤ × List ℚ × List (List ℚ)) × List SrcLine)
  | 0, fo, T, LT, Es, als => .ok ((T, LT, Es, als), fo)
  | k+1, fo, _, _, Es, als => do
      let (items, al, fo) ← get_list_record fo
      legendre_loop k fo (some items.c1) (some items.l1) (Es ++ [items.c2]) (als ++ [al])

/-- endf.py, legendre_data (local to _read_mf4): a TAB2 record declaring the
energy-point count, then the coefficient LIST records. -/
def legendre_data (fo : List SrcLine) : Except Err (LegData × List SrcLine) := do
  let (params, E_int, fo) ← get_tab2_record fo
  let ((T, LT, Es, als), fo) ← legendre_loop params.n2.toNat fo none none [] []
  .ok (⟨E_int, T, LT, Es, als⟩, fo)

/-- Loop of tabulated_data in _read_mf4: one TAB1 record per energy point;
T and LT are overwritten on every iteration while E and mu accumulate. -/
def tabulated_loop : ℕ → List SrcLine → Option ℚ → Option ℤ → List ℚ → List Tab1 →
    Except Err ((Option ℚ × Option ℤ × List ℚ × List Tab1) × List SrcLine)
  | 0, fo, T, LT, Es, mus => .ok ((T, LT, Es, mus), fo)
  | k+1, fo, _, _, Es, mus => do
      let (params, f, fo) ← get_tab1_record fo
      tabulated_loop k fo (some params.c1) (some params.l1) (Es ++ [params.c2]) (mus ++ [f])

/-- endf.py, tabulated_data (local to _read_mf4): a TAB2 record declaring
the energy-point count, then the probability-table TAB1 records. -/
def tabulated_data (fo : List SrcLine) : Except Err (TabData × List SrcLine) := do
  let (params, E_int, fo) ← get_tab2_record fo
  let ((T, LT, Es, mus), fo) ← tabulated_loop params.n2.toNat fo none none [] []
  .ok (⟨E_int, T, LT, Es, mus⟩, fo)

/-- Body of the _read_mf4 section loop: HEAD and CONT records, the skip of
the obsolete transformation matrix when LVT is positive, then the dispatch
on (LTT, LI); a pair matching none of the four supported combinations
falls through the if/elif chain, leaving the dict without distribution
data and reading none of the remaining records. -/
def read_mf4_section (txt : List SrcLine) : Except Err MF4Data := do
  let (items, fo) ← get_head_record txt
  let LVT := items.l1
  let LTT := items.l2
  let (items2, fo) ← get_cont_record false fo
  let LI := items2.l1
  let LCT := items2.l2
  let NK := items2.n1
  let fo := if 0 < LVT then fo.drop ((NK + 5).fdiv 6).toNat else fo
  if LTT = 0 ∧ LI = 1 then .ok ⟨LTT, LI, LCT, none, none⟩
  else if LTT = 1 ∧ LI = 0 then do
    let (ld, _) ← legendre_data fo
    .ok ⟨LTT, LI, LCT, some ld, none⟩
  else if LTT = 2 ∧ LI = 0 then do
    let (td, _) ← tabulated_data fo
    .ok ⟨LTT, LI, LCT, none, some td⟩
  else if LTT = 3 ∧ LI = 0 then do
    let (ld, fo) ← legendre_data fo
    let (td, _) ← tabulated_data fo
    .ok ⟨LTT, LI, LCT, some ld, some td⟩
  else .ok ⟨LTT, LI, LCT, none, none⟩

/-- endf.py, Evaluation._read_mf4: the per-section body applied to every
stored section with MF=4. -/
def read_mf4 : List ((ℤ × ℤ) × List SrcLine) → Except Err (List (ℤ × MF4Data))
  | [] => .ok []
  | ((mf, mt), txt) :: rest =>
      if mf = 4 then do
        let d ← read_mf4_section txt
        let tail ← read_mf4 rest
        .ok ((mt, d) :: tail)
      else read_mf4 rest

/-- Value produced by one of the six energy-law decoders dispatched on LF
in _read_mf5. -/
inductive EnergyDist where
  | arbitraryTabulated (params : Params4)
  | generalEvaporation (params : Params4)
  | maxwell (params : Params4)
  | evaporation (params : Params4)
  | watt (params : Params4)
  | madlandNix (params : Params4)
  deriving DecidableEq

/-- Modelled from the spec: energy_distribution.py is not among the given
sources.  The spec treats the six energy-law decoders purely as external
collaborators identified by the law code and handed the record cursor and
the TAB1 control fields; their internal record consumption is specified
only by their interface contract and no claim below depends on it, so each
is modelled as returning its tagged value with the cursor untouched. -/
def ArbitraryTabulated_dict_from_endf (fo : List SrcLine) (params : Params4) :
    EnergyDist × List SrcLine := (.arbitraryTabulated params, fo)

/-- Modelled from the spec: external collaborator for LF=5, see
ArbitraryTabulated_dict_from_endf. -/
def GeneralEvaporation_from_endf (fo : List SrcLine) (params : Params4) :
    EnergyDist × List SrcLine := (.generalEvaporation params, fo)

/-- Modelled from the spec: external collaborator for LF=7, see
ArbitraryTabulated_dict_from_endf. -/
def MaxwellEnergy_from_endf (fo : List SrcLine) (params : Params4) :
    EnergyDist × List SrcLine := (.maxwell params, fo)

/-- Modelled from the spec: external collaborator for LF=9, see
ArbitraryTabulated_dict_from_endf. -/
def Evaporation_from_endf (fo : List SrcLine) (params : Params4) :
    EnergyDist × List SrcLine := (.evaporation params, fo)

/-- Modelled from the spec: external collaborator for LF=11, see
ArbitraryTabulated_dict_from_endf. -/
def WattEnergy_from_endf (fo : List SrcLine) (params : Params4) :
    EnergyDist × List SrcLine := (.watt params, fo)

/-- Modelled from the spec: external collaborator for LF=12, see
ArbitraryTabulated_dict_from_endf. -/
def MadlandNix_from_endf (fo : List SrcLine) (params : Params4) :
    EnergyDist × List SrcLine := (.madlandNix params, fo)

/-- One entry of the subsections list of _read_mf5. -/
structure MF5Sub where
  LF : ℤ
  p : Tab1
  distribution : EnergyDist
  deriving DecidableEq

/-- The per-MT dict of _read_mf5: the declared sub-distribution count NK
and the subsection entries actually appended. -/
structure MF5Data where
  NK : ℤ
  subsections : List MF5Sub
  deriving DecidableEq

/-- Sub-distribution loop of _read_mf5.  For each entry the applicability
TAB1 is read and LF taken from its control fields.  LF=1 stores the
arbitrary-tabulated value and continues; LF of 5, 7, 9, 11 or 12 executes
a return statement inside the loop, so the loop (and the whole method)
stops, the current entry is never appended, and the collaborator value
becomes the early result (second component some).  Any other LF reaches
the append with the local dist still bound to its value from a previous
iteration, or raises NameError on the first iteration. -/
def mf5_subsections : ℕ → List SrcLine → Option EnergyDist →
    Except Err (List MF5Sub × Option EnergyDist × List SrcLine)
  | 0, fo, _ => .ok ([], none, fo)
  | k+1, fo, lastDist => do
      let (params, applicability, fo) ← get_tab1_record fo
      let LF := params.l2
      if LF = 1 then do
        let (dist, fo) := ArbitraryTabulated_dict_from_endf fo params
        let (subs, early, fo) ← mf5_subsections k fo (some dist)
        .ok (⟨LF, applicability, dist⟩ :: subs, early, fo)
      else if LF = 5 then
        .ok ([], some (GeneralEvaporation_from_endf fo params).1, fo)
      else if LF = 7 then
        .ok ([], some (MaxwellEnergy_from_endf fo params).1, fo)
      else if LF = 9 then
        .ok ([], some (Evaporation_from_endf fo params).1, fo)
      else if LF = 11 then
        .ok ([], some (WattEnergy_from_endf fo params).1, fo)
      else if LF = 12 then
        .ok ([], some (MadlandNix_from_endf fo params).1, fo)
      else
        match lastDist with
        | none => .error .nameError
        | some d => do
            let (subs, early, fo) ← mf5_subsections k fo (some d)
            .ok (⟨LF, applicability, d⟩ :: subs, early, fo)

/-- endf.py, Evaluation._read_mf5: for each stored section with MF=5, the
HEAD record gives NK and the per-MT dict (with the subsections gathered so
far) is stored before the sub-distribution loop runs.  When the loop
executes one of its return statements, the whole method returns: the
stored dict keeps its partial subsections list and no further MF=5 section
is processed. -/
def read_mf5 : List ((ℤ × ℤ) × List SrcLine) → Except Err (List (ℤ × MF5Data))
  | [] => .ok []
  | ((mf, mt), txt) :: rest =>
      if mf = 5 then do
        let (items, fo) ← get_head_record txt
        let NK := items.n1
        let (subs, early, _) ← mf5_subsections NK.toNat fo none
        match early with
        | some _ => .ok [(mt, ⟨NK, subs⟩)]
        | none => do
            let tail ← read_mf5 rest
            .ok ((mt, ⟨NK, subs⟩) :: tail)
      else read_mf5 rest

/-
Material segmentation (Evaluation.__init__) and get_evaluations.
-/

/-- One raw 80-column line as the segmenter sees it: the decoded payload of
its first 66 columns together with the raw text of the MAT field (columns
66:70), the MF field (70:72) and the MT field (72:75); the source compares
some of these fields as strings and int()-parses others. -/
structure RawLine where
  body : SrcLine
  mat : String
  mf : String
  mt : String
  deriving DecidableEq

/-- Python int() on the raw text of a tag field: surrounding blanks are
tolerated, anything else (including the empty string produced by reading
past the end of the stream) raises ValueError. -/
def parse_int_field (s : String) : Except Err ℤ :=
  match s.trim.toInt? with
  | some n => .ok n
  | none => .error .valueError

/-- The MAT-field text of the next line, with Python's readline convention
that reading at end of stream yields the empty string. -/
def head_mat : List RawLine → String
  | [] => ""
  | l :: _ => l.mat

/-- The while MF == 0 loop of Evaluation.__init__: skip lines whose MF
field parses to zero, int()-parse the MAT field of the first line whose MF
is nonzero, and rewind so that line is read again. -/
def find_material : List RawLine → Except Err (ℤ × List RawLine)
  | [] => .error .valueError
  | l :: rest => do
      let mfv ← parse_int_field l.mf
      if mfv = 0 then find_material rest
      else do
        let matv ← parse_int_field l.mat
        .ok (matv, l :: rest)

/-- The inner find-next-section loop of Evaluation.__init__: int()-parse
the three tag fields of each line, consuming lines until one has MT > 0 or
MAT = 0, and rewind so that line is read again. -/
def find_next_section : List RawLine → Except Err ((ℤ × ℤ × ℤ) × List RawLine)
  | [] => .error .valueError
  | l :: rest => do
      let MAT ← parse_int_field l.mat
      let MF ← parse_int_field l.mf
      let MT ← parse_int_field l.mt
      if 0 < MT ∨ MAT = 0 then .ok ((MAT, MF, MT), l :: rest)
      else find_next_section rest

/-- The section-accumulation loop of Evaluation.__init__: lines are
appended to the section until one whose MT field is the literal string of
a right-justified zero appears; that terminator line is consumed but not
stored.  The Python loop never tests for end of stream and would cycle on
an empty readline forever; that divergence is modelled as an error. -/
def collect_section : List RawLine → Except Err (List SrcLine × List RawLine)
  | [] => .error .valueError
  | l :: rest =>
      if l.mt = "  0" then .ok ([], rest)
      else do
        let (body, rest') ← collect_section rest
        .ok (l.body :: body, rest')

/-- Python dict assignment d[k] = v on an insertion-ordered dict: replace
in place when the key exists, append otherwise. -/
def dict_insert : List ((ℤ × ℤ) × List SrcLine) → (ℤ × ℤ) → List SrcLine →
    List ((ℤ × ℤ) × List SrcLine)
  | [], k, v => [(k, v)]
  | (k', v') :: rest, k, v =>
      if k' = k then (k, v) :: rest else (k', v') :: dict_insert rest k v

/-- Python dict lookup d[k], raising KeyError when absent (used for the
mandatory (1, 451) section). -/
def dict_get (secs : List ((ℤ × ℤ) × List SrcLine)) (k : ℤ × ℤ) : Except Err (List SrcLine) :=
  match secs with
  | [] => .error .keyError
  | (k', v) :: rest => if k' = k then .ok v else dict_get rest k

/-- The outer while True loop of Evaluation.__init__: find the next
section, stop (consuming one terminator line) when the material tag is
zero, otherwise accumulate the section under its (MF, MT) key.  The fuel
argument bounds the iteration count; each iteration consumes at least one
line, so fuel exceeding the line count never runs out. -/
def scan_sections : ℕ → List RawLine → List ((ℤ × ℤ) × List SrcLine) →
    Except Err (List ((ℤ × ℤ) × List SrcLine) × List RawLine)
  | 0, _, _ => .error .fuelOut
  | fuel+1, lines, acc => do
      let ((MAT, MF, MT), lines) ← find_next_section lines
      if MAT = 0 then .ok (acc, lines.drop 1)
      else do
        let (body, lines) ← collect_section lines
        scan_sections fuel lines (dict_insert acc (MF, MT) body)

/-- The Evaluation object after construction: the section dict and the
fields populated by _read_mf1_mt451, _read_mf3, _read_mf4 and _read_mf5. -/
structure Evaluation where
  material : ℤ
  sections : List ((ℤ × ℤ) × List SrcLine)
  target : TargetInfo
  info : EvalInfo
  projectile_mass : ℚ
  reaction_list : List (ℤ × ℤ × ℤ × ℤ)
  cross_sections : List (ℤ × MF3Data)
  angular_distributions : List (ℤ × MF4Data)
  energy_distributions : List (ℤ × MF5Data)
  deriving DecidableEq

/-- endf.py, Evaluation.__init__ on an open stream: skip the TPID line when
the stream is at position zero, find the material tag, segment the
material into sections, then run the four section readers.  The absence of
the mandatory (1, 451) section surfaces as the KeyError of the dict
lookup, exactly as in the source. -/
def parse_evaluation (at_start : Bool) (lines : List RawLine) :
    Except Err (Evaluation × List RawLine) := do
  let lines := if at_start then lines.drop 1 else lines
  let (material, lines) ← find_material lines
  let (secs, lines) ← scan_sections (lines.length + 1) lines []
  let mf1txt ← dict_get secs (1, 451)
  let (r1, _) ← read_mf1_mt451 mf1txt
  let xs ← read_mf3 secs
  let ads ← read_mf4 secs
  let eds ← read_mf5 secs
  .ok (⟨material, secs, r1.target, r1.info, r1.projectile_mass, r1.reaction_list,
        xs, ads, eds⟩, lines)

/-- Loop of get_evaluations: peek at the next line, stop with the list
gathered so far when its MAT field is the literal end-of-tape sentinel,
otherwise parse one evaluation and continue.  The first iteration is the
only one at stream position zero. -/
def get_evaluations_loop : ℕ → Bool → List RawLine → Except Err (List Evaluation)
  | 0, _, _ => .error .fuelOut
  | fuel+1, at_start, lines =>
      if head_mat lines = "  -1" then .ok []
      else do
        let (ev, rest) ← parse_evaluation at_start lines
        let evs ← get_evaluations_loop fuel false rest
        .ok (ev :: evs)

/-- endf.py, get_evaluations: all evaluations of a stream, reading until
the end-of-tape sentinel. -/
def get_evaluations (lines : List RawLine) : Except Err (List Evaluation) :=
  get_evaluations_loop (lines.length + 1) true lines

/-
Builders for synthetic record streams, used to state and witness the
theorems below.  Each builder lays out values exactly as the corresponding
record reader consumes them.
-/

/-- Pack a value list into k data lines of six values each (the last line
short when fewer than six values remain). -/
def data_rows_aux : ℕ → List ℚ → List SrcLine
  | 0, _ => []
  | k+1, vs => .data (vs.take 6) :: data_rows_aux k (vs.drop 6)

/-- A LIST record whose control fields are items and whose value table is
vals; well formed when the count field items.n1 equals vals.length. -/
def mk_list_record (items : CtrlItems) (vals : List ℚ) : List SrcLine :=
  .ctrl items.c1 items.c2 items.l1 items.l2 items.n1 items.n2 ::
    data_rows_aux ((items.n1.toNat + 5) / 6) vals

/-- A TAB1 record with control fields items, flat region table regions and
flat (x, y) table pts; well formed when regions.length = 2 * items.n1 and
pts.length = 2 * items.n2. -/
def mk_tab1_record (items : CtrlItems) (regions pts : List ℚ) : List SrcLine :=
  .ctrl items.c1 items.c2 items.l1 items.l2 items.n1 items.n2 ::
    (data_rows_aux ((items.n1.toNat + 2) / 3) regions ++
     data_rows_aux ((items.n2.toNat + 2) / 3) pts)

/-- The Tab1 value get_tab1_record produces for a well-formed
mk_tab1_record stream. -/
def tab1_of (items : CtrlItems) (regions pts : List ℚ) : Tab1 :=
  ⟨items.n1, items.n2, regions,
   (List.range items.n2.toNat).map fun i => pts.getD (2 * i) 0,
   (List.range items.n2.toNat).map fun i => pts.getD (2 * i + 1) 0⟩

/-- A TAB2 record with control fields items and flat region table regions;
well formed when regions.length = 2 * items.n1. -/
def mk_tab2_record (items : CtrlItems) (regions : List ℚ) : List SrcLine :=
  .ctrl items.c1 items.c2 items.l1 items.l2 items.n1 items.n2 ::
    data_rows_aux ((items.n1.toNat + 2) / 3) regions

/-
Helper lemmas about the record readers on builder streams.
-/

theorem le_six_mul_div_add_five (n : ℕ) : n ≤ 6 * ((n + 5) / 6) := by
  have h1 := Nat.div_add_mod (n + 5) 6
  have h2 := Nat.mod_lt (n + 5) (show 0 < 6 by norm_num)
  omega

theorem two_mul_le_six_mul_div_add_two (n : ℕ) : 2 * n ≤ 6 * ((n + 2) / 3) := by
  have h1 := Nat.div_add_mod (n + 2) 3
  have h2 := Nat.mod_lt (n + 2) (show 0 < 3 by norm_num)
  omega

theorem read_data_lines_rows (k : ℕ) (vs : List ℚ) (rest : List SrcLine)
    (h : vs.length ≤ 6 * k) :
    read_data_lines k (data_rows_aux k vs ++ rest) = .ok (vs, rest) := by
  induction k generalizing vs with
  | zero =>
      have hvs : vs = [] := List.length_eq_zero.mp (Nat.le_zero.mp (by simpa using h))
      simp [hvs, data_rows_aux, read_data_lines]
  | succ k ih =>
      have hdrop : (vs.drop 6).length ≤ 6 * k := by
        simp only [List.length_drop]
        omega
      simp [data_rows_aux, read_data_lines, bind, Except.bind, ih (vs.drop 6) hdrop]

theorem get_list_record_mk (items : CtrlItems) (vals : List ℚ) (rest : List SrcLine)
    (h : vals.length = items.n1.toNat) :
    get_list_record (mk_list_record items vals ++ rest) = .ok (items, vals, rest) := by
  have hle : vals.length ≤ 6 * ((vals.length + 5) / 6) := le_six_mul_div_add_five _
  simp [mk_list_record, get_list_record, get_head_record, get_cont_record, bind, Except.bind,
        ← h, read_data_lines_rows _ _ _ hle, List.take_length]

theorem get_tab2_record_mk (items : CtrlItems) (regions : List ℚ) (rest : List SrcLine)
    (hr : regions.length = 2 * items.n1.toNat) :
    get_tab2_record (mk_tab2_record items regions ++ rest) = .ok (items, regions, rest) := by
  have hn : items.n1.toNat = regions.length / 2 := by omega
  have hle : regions.length ≤ 6 * ((regions.length / 2 + 2) / 3) := by
    have h1 := Nat.div_add_mod (regions.length / 2 + 2) 3
    have h2 := Nat.mod_lt (regions.length / 2 + 2) (show 0 < 3 by norm_num)
    omega
  simp [mk_tab2_record, get_tab2_record, get_head_record, get_cont_record, bind, Except.bind,
        hn, read_data_lines_rows _ _ _ hle, List.take_length,
        show 2 * (regions.length / 2) = regions.length by omega]

theorem get_tab1_record_mk (items : CtrlItems) (regions pts : List ℚ) (rest : List SrcLine)
    (hr : regions.length = 2 * items.n1.toNat) (hp : pts.length = 2 * items.n2.toNat) :
    get_tab1_record (mk_tab1_record items regions pts ++ rest) =
      .ok (⟨items.c1, items.c2, items.l1, items.l2⟩, tab1_of items regions pts, rest) := by
  have hler : regions.length ≤ 6 * ((items.n1.toNat + 2) / 3) := by
    rw [hr]; exact two_mul_le_six_mul_div_add_two _
  have hlep : pts.length ≤ 6 * ((items.n2.toNat + 2) / 3) := by
    rw [hp]; exact two_mul_le_six_mul_div_add_two _
  simp [mk_tab1_record, get_tab1_record, get_head_record, get_cont_record, bind, Except.bind,
        List.append_assoc, read_data_lines_rows _ _ _ hler, read_data_lines_rows _ _ _ hlep,
        tab1_of, ← hr, ← hp, List.take_length]

/-
Claim theorems.
-/

/-- C6: an input stream holding zero evaluations followed by the
end-of-tape sentinel line (its material tag field reading -1) makes
get_evaluations return the empty evaluation sequence rather than raise. -/
theorem c6_zero_evaluations_empty_result (b : SrcLine) (mfs mts : String)
    (rest : List RawLine) :
    get_evaluations (⟨b, "  -1", mfs, mts⟩ :: rest) = .ok [] := by
  simp [get_evaluations, get_evaluations_loop, head_mat]

/-- C1, behaviour at the failing input: an MF=5 section (MT=18) declaring
NK=2 whose first sub-distribution carries LF=5 makes _read_mf5 return at
once: the stored dict keeps NK=2 but zero recorded subsections, and a
second MF=5 section (MT=91) is never processed at all. -/
theorem c1_mf5_early_return_drops_subsections :
    read_mf5 [((5, 18), [.ctrl 0 0 0 0 2 0, .ctrl 0 0 0 5 0 0, .ctrl 0 0 0 9 0 0]),
              ((5, 91), [.ctrl 0 0 0 0 1 0, .ctrl 0 0 0 1 0 0])] =
      .ok [(18, ⟨2, []⟩)] := by
  simp [read_mf5, mf5_subsections, get_head_record, get_cont_record, get_tab1_record,
        read_data_lines, bind, Except.bind, GeneralEvaporation_from_endf]

/-- C2, behaviour at the failing input: for a product with LAW=5 (and
likewise LAW=7) parse_mf6 stores the stub's empty result and leaves the
record cursor where it was, so the data line holding the law's record
extent is still unconsumed in the returned stream. -/
theorem c2_mf6_law5_law7_leave_cursor :
    parse_mf6 [.ctrl 0 0 0 0 1 0, .ctrl 0 0 0 5 0 0, .data [1, 2, 3, 4, 5, 6]] =
      .ok (⟨0, 0, 0, 0, 1, [⟨0, 0, 0, 5, ⟨0, 0, [], [], []⟩, some .chargedParticleElastic⟩]⟩,
           [.data [1, 2, 3, 4, 5, 6]])
    ∧ parse_mf6 [.ctrl 0 0 0 0 1 0, .ctrl 0 0 0 7 0 0, .data [1, 2, 3, 4, 5, 6]] =
      .ok (⟨0, 0, 0, 0, 1, [⟨0, 0, 0, 7, ⟨0, 0, [], [], []⟩, some .labAngleEnergy⟩]⟩,
           [.data [1, 2, 3, 4, 5, 6]]) := by
  constructor <;>
    simp [parse_mf6, mf6_products, get_head_record, get_cont_record, get_tab1_record,
          read_data_lines, bind, Except.bind, pytrunc,
          ChargedParticleElasticScattering_dict_from_endf,
          LaboratoryAngleEnergy_dict_from_endf]

/-- C5, behaviour at the failing input: for a product with LAW=2 the
parser consumes the TAB2 and LIST records of the discrete two-body data,
but the distribution field of the product holds the None returned by
DiscreteTwoBodyScattering.dict_from_endf, not the decoded data. -/
theorem c5_mf6_law2_distribution_is_none :
    parse_mf6 [.ctrl 0 0 0 0 1 0, .ctrl 0 0 0 2 0 0, .ctrl 0 0 0 0 0 1,
               .ctrl 0 5 0 0 3 2, .data [1, 2, 3, 0, 0, 0]] =
      .ok (⟨0, 0, 0, 0, 1, [⟨0, 0, 0, 2, ⟨0, 0, [], [], []⟩, some (.discreteTwoBody none)⟩]⟩,
           []) := by
  simp [parse_mf6, mf6_products, get_head_record, get_cont_record, get_tab1_record,
        get_tab2_record, get_list_record, read_data_lines, bind, Except.bind, pytrunc,
        DiscreteTwoBodyScattering_dict_from_endf, dtb_points]

/-- C3, counterexample to the claim as stated: an MF=4 section whose
discriminators are (LTT, LI) = (4, 0) parses without any error signal;
the result keeps only the flags and the remaining record is ignored. -/
theorem c3_counterexample_no_error_on_unsupported :
    read_mf4_section [.ctrl 0 0 0 4 0 0, .ctrl 0 0 0 2 0 0, .data [1, 2, 3]] =
      .ok ⟨4, 0, 2, none, none⟩ := by
  simp [read_mf4_section, get_head_record, get_cont_record, bind, Except.bind]

/-- C4, counterexample to the claim as stated: a product with the
unrecognized LAW=8 parses without error; the product is recorded with no
distribution and the loop simply continues. -/
theorem c4_counterexample_no_error_on_law8 :
    parse_mf6 [.ctrl 0 0 0 0 1 0, .ctrl 0 0 0 8 0 0] =
      .ok (⟨0, 0, 0, 0, 1, [⟨0, 0, 0, 8, ⟨0, 0, [], [], []⟩, none⟩]⟩, []) := by
  simp [parse_mf6, mf6_products, get_head_record, get_cont_record, get_tab1_record,
        read_data_lines, bind, Except.bind, pytrunc]

theorem floor_95242_div_1000 : Int.floor ((95242 : ℚ) / 1000) = 95 := by
  have h : ((95242 : ℚ) / 1000) = ((95242 : ℤ) : ℚ) / ((1000 : ℕ) : ℚ) := by norm_num
  rw [h, Rat.floor_intCast_div_natCast]
  decide

theorem pyfloordiv_95242_1000 : pyfloordiv 95242 1000 = 95 := by
  simp [pyfloordiv, floor_95242_div_1000]

theorem pymod_95242_1000 : pymod 95242 1000 = 242 := by
  rw [pymod, pyfloordiv_95242_1000]; norm_num

/-- C7: parsing a minimal MF=1/451 header succeeds and stores as the
excited-state index the value 2 exactly when the target decodes to atomic
number 95, mass number 242 and isomeric state 1, and the raw LIS field of
control record 1 for every other combination. -/
theorem c7_am242m_state_forced
    (za awr elis sta awi emax temp : ℚ)
    (lrp lfi nlib nmod lis liso lrel nver ldrv nsub : ℤ)
    (s : String) (rest : List SrcLine) (hsub : SUBLIBRARY_lookup nsub = some s) :
    (read_mf1_mt451
        (.ctrl za awr lrp lfi nlib nmod :: .ctrl elis sta lis liso 0 6 ::
         .ctrl awi emax lrel 0 nsub nver :: .ctrl temp 0 ldrv 0 0 0 :: rest)).map
        (fun x => (x.1.target.atomic_number, x.1.target.mass_number,
                   x.1.target.isomeric_state, x.1.target.state)) =
      .ok (pyfloordiv za 1000, pymod za 1000, liso,
           if pyfloordiv za 1000 = 95 ∧ pymod za 1000 = 242 ∧ liso = 1 then 2 else lis) := by
  simp [read_mf1_mt451, get_head_record, get_cont_record, bind, Except.bind,
        read_text_records, read_reaction_list, hsub, Except.map]

/-- C7 witness: the published Am242m1 header (ZA=95242, LISO=1) parses with
excited-state index 2 even though its raw LIS field is 0. -/
theorem c7_witness :
    (read_mf1_mt451
        [.ctrl 95242 236 0 0 0 0, .ctrl 0 0 0 1 0 6,
         .ctrl 1 20 0 0 10 7, .ctrl 0 0 0 0 0 0]).map
        (fun x => (x.1.target.atomic_number, x.1.target.mass_number,
                   x.1.target.isomeric_state, x.1.target.state)) =
      .ok (95, 242, 1, 2) := by
  have h := c7_am242m_state_forced 95242 236 0 0 1 20 0 0 0 0 0 0 1 0 7 0 10
    "Incident-neutron data" [] (by decide)
  rw [h, pyfloordiv_95242_1000, pymod_95242_1000]
  norm_num

/-- C8: in _read_mf1_mt451 a library code outside the known-library table
degrades to the literal name Unknown while parsing succeeds (first
conjunct), whereas a sublibrary code outside the sublibrary table aborts
parsing with the KeyError (second conjunct); both hold for every pair of
codes. -/
theorem c8_library_fallback_sublibrary_fatal (lc sc : ℤ) :
    (∀ s, SUBLIBRARY_lookup sc = some s → LIBRARY_lookup lc = none →
       (read_mf1_mt451
           [.ctrl 1001 1 0 0 lc 0, .ctrl 0 0 0 0 0 6,
            .ctrl 1 20 0 0 sc 7, .ctrl 0 0 0 0 0 0]).map
           (fun x => (x.1.info.library, x.1.info.sublibrary)) =
         .ok (("Unknown", 7, 0), s))
    ∧ (SUBLIBRARY_lookup sc = none →
       read_mf1_mt451
           [.ctrl 1001 1 0 0 lc 0, .ctrl 0 0 0 0 0 6,
            .ctrl 1 20 0 0 sc 7, .ctrl 0 0 0 0 0 0] = .error Err.keyError) := by
  constructor
  · intro s hs hl
    simp [read_mf1_mt451, get_head_record, get_cont_record, bind, Except.bind,
          read_text_records, read_reaction_list, hs, hl, Except.map]
  · intro hn
    simp [read_mf1_mt451, get_head_record, get_cont_record, bind, Except.bind, hn]

/-- C8 witness: library code 99 is unknown and falls back to Unknown with
the parse succeeding, while sublibrary code 2 is unknown and is fatal. -/
theorem c8_witness :
    (read_mf1_mt451
        [.ctrl 1001 1 0 0 99 0, .ctrl 0 0 0 0 0 6,
         .ctrl 1 20 0 0 10 7, .ctrl 0 0 0 0 0 0]).map
        (fun x => (x.1.info.library, x.1.info.sublibrary)) =
      .ok (("Unknown", 7, 0), "Incident-neutron data")
    ∧ read_mf1_mt451
        [.ctrl 1001 1 0 0 99 0, .ctrl 0 0 0 0 0 6,
         .ctrl 1 20 0 0 2 7, .ctrl 0 0 0 0 0 0] = .error Err.keyError :=
  ⟨(c8_library_fallback_sublibrary_fatal 99 10).1 "Incident-neutron data"
      (by decide) (by decide),
   (c8_library_fallback_sublibrary_fatal 99 2).2 (by decide)⟩

theorem read_text_records_map (ts : List String) (rest : List SrcLine) :
    read_text_records ts.length (ts.map SrcLine.text ++ rest) = .ok (ts, rest) := by
  induction ts with
  | nil => simp [read_text_records]
  | cons t ts ih => simp [read_text_records, get_text_record, bind, Except.bind, ih]

/-- C9: an MF=1/451 section declaring NWD text records has exactly those
NWD records consumed (the leftover stream is exactly what follows them),
parsing succeeds for every NWD, and the target name is the Unknown
fallback whenever fewer than five text records are present. -/
theorem c9_nwd_text_records (texts : List String) (rest : List SrcLine) :
    (read_mf1_mt451
        ([.ctrl 1001 1 0 0 0 0, .ctrl 0 0 0 0 0 6, .ctrl 1 20 0 0 10 7,
          .ctrl 0 0 0 0 (texts.length : ℤ) 0] ++ texts.map SrcLine.text ++ rest)).map
        (fun x => (x.1.target.zsymam, x.2)) =
      .ok ((if 5 ≤ texts.length then pyslice (texts.getD 0 "") 0 11 else "Unknown"), rest) := by
  simp [read_mf1_mt451, get_head_record, get_cont_record, bind, Except.bind,
        read_text_records_map, read_reaction_list, Except.map, SUBLIBRARY_lookup]

/-- C9 witness: the minimal header with NWD=0 and NXC=0 parses
successfully, consumes its whole section, and leaves the target name
Unknown. -/
theorem c9_witness :
    (read_mf1_mt451
        [.ctrl 1001 1 0 0 0 0, .ctrl 0 0 0 0 0 6, .ctrl 1 20 0 0 10 7,
         .ctrl 0 0 0 0 0 0]).map (fun x => (x.1.target.zsymam, x.2)) =
      .ok ("Unknown", []) := by
  have h := c9_nwd_text_records [] []
  simpa using h

/-- C3 amended: an MF=4 section whose (LTT, LI) pair matches none of the
four supported combinations is silently ignored, not reported: parsing
returns the flag-only result with no distribution data and reads none of
the section's remaining records, whatever they are. -/
theorem c3_amended_mf4_unsupported_silently_ignored
    (q1 q2 q3 q4 : ℚ) (LVT LTT n1 n2 LI LCT NK n2' : ℤ) (rest : List SrcLine)
    (h0 : ¬(LTT = 0 ∧ LI = 1)) (h1 : ¬(LTT = 1 ∧ LI = 0))
    (h2 : ¬(LTT = 2 ∧ LI = 0)) (h3 : ¬(LTT = 3 ∧ LI = 0)) :
    read_mf4_section (.ctrl q1 q2 LVT LTT n1 n2 :: .ctrl q3 q4 LI LCT NK n2' :: rest) =
      .ok ⟨LTT, LI, LCT, none, none⟩ := by
  simp [read_mf4_section, get_head_record, get_cont_record, bind, Except.bind,
        h0, h1, h2, h3]

/-- C3 amended, witness: the pair (LTT, LI) = (4, 0) with a pending record
is silently accepted with the flag-only result. -/
theorem c3_witness :
    read_mf4_section [.ctrl 0 0 0 4 0 0, .ctrl 0 0 0 2 5 0, .data [1, 2]] =
      .ok ⟨4, 0, 2, none, none⟩ :=
  c3_amended_mf4_unsupported_silently_ignored 0 0 0 0 0 4 0 0 0 2 5 0 [.data [1, 2]]
    (by decide) (by decide) (by decide) (by decide)

/-- C4 amended: a product whose LAW is none of the recognized values (so
LAW being 8 or larger) raises nothing: the product is recorded with its
yield but no distribution, nothing further is consumed for it, and the
loop moves on to the next product. -/
theorem c4_amended_mf6_unrecognized_law_silent
    (items : CtrlItems) (regions pts : List ℚ) (k : ℕ) (rest : List SrcLine)
    (hr : regions.length = 2 * items.n1.toNat) (hp : pts.length = 2 * items.n2.toNat)
    (hlaw : 8 ≤ items.l2) :
    mf6_products (k+1) (mk_tab1_record items regions pts ++ rest) =
      (mf6_products k rest).bind (fun pf =>
        .ok (⟨pytrunc items.c1, items.c2, items.l1, items.l2,
              tab1_of items regions pts, none⟩ :: pf.1, pf.2)) := by
  have e0 : ¬(items.l2 < 0) := by omega
  have e1 : items.l2 ≠ 0 := by omega
  have e2 : items.l2 ≠ 1 := by omega
  have e3 : items.l2 ≠ 2 := by omega
  have e4 : items.l2 ≠ 3 := by omega
  have e5 : items.l2 ≠ 4 := by omega
  have e6 : items.l2 ≠ 5 := by omega
  have e7 : items.l2 ≠ 6 := by omega
  have e8 : items.l2 ≠ 7 := by omega
  simp [mf6_products, bind, Except.bind, get_tab1_record_mk items regions pts rest hr hp,
        e0, e1, e2, e3, e4, e5, e6, e7, e8]

/-- C4 amended, witness: a single product with LAW=8 is recorded without a
distribution and parsing of the product list succeeds. -/
theorem c4_witness :
    mf6_products 1 (mk_tab1_record ⟨0, 0, 0, 8, 0, 0⟩ [] [] ++ []) =
      .ok ([⟨pytrunc 0, 0, 0, 8, tab1_of ⟨0, 0, 0, 8, 0, 0⟩ [] [], none⟩], []) := by
  have h := c4_amended_mf6_unrecognized_law_silent ⟨0, 0, 0, 8, 0, 0⟩ [] [] 0 []
    (by decide) (by decide) (by decide)
  simpa [mf6_products, bind, Except.bind] using h

theorem legendre_loop_blocks (pts : List (CtrlItems × List ℚ)) (rest : List SrcLine)
    (T0 : Option ℚ) (LT0 : Option ℤ) (Es : List ℚ) (als : List (List ℚ))
    (hv : ∀ pt ∈ pts, pt.2.length = pt.1.n1.toNat) :
    legendre_loop pts.length
        ((pts.map fun pt => mk_list_record pt.1 pt.2).flatten ++ rest) T0 LT0 Es als =
      .ok ((match pts.getLast? with | some pt => some pt.1.c1 | none => T0,
            match pts.getLast? with | some pt => some pt.1.l1 | none => LT0,
            Es ++ pts.map fun pt => pt.1.c2,
            als ++ pts.map fun pt => pt.2), rest) := by
  induction pts generalizing T0 LT0 Es als with
  | nil => simp [legendre_loop]
  | cons pt pts ih =>
      have h1 : pt.2.length = pt.1.n1.toNat := hv pt (by simp)
      have hv' : ∀ q ∈ pts, q.2.length = q.1.n1.toNat := fun q hq => hv q (by simp [hq])
      rw [List.length_cons]
      simp only [List.map_cons, List.flatten_cons, List.append_assoc]
      rw [legendre_loop]
      simp only [bind, Except.bind, get_list_record_mk _ _ _ h1]
      rw [ih _ _ _ _ hv']
      cases pts with
      | nil => simp
      | cons b l =>
          cases hlast : (b :: l).getLast? with
          | none => exact absurd (List.getLast?_eq_none_iff.mp hlast) (by simp)
          | some x => simp [hlast]

theorem tabulated_loop_blocks (tps : List (CtrlItems × List ℚ × List ℚ)) (rest : List SrcLine)
    (T0 : Option ℚ) (LT0 : Option ℤ) (Es : List ℚ) (mus : List Tab1)
    (ht : ∀ tp ∈ tps, tp.2.1.length = 2 * tp.1.n1.toNat ∧ tp.2.2.length = 2 * tp.1.n2.toNat) :
    tabulated_loop tps.length
        ((tps.map fun tp => mk_tab1_record tp.1 tp.2.1 tp.2.2).flatten ++ rest) T0 LT0 Es mus =
      .ok ((match tps.getLast? with | some tp => some tp.1.c1 | none => T0,
            match tps.getLast? with | some tp => some tp.1.l1 | none => LT0,
            Es ++ tps.map fun tp => tp.1.c2,
            mus ++ tps.map fun tp => tab1_of tp.1 tp.2.1 tp.2.2), rest) := by
  induction tps generalizing T0 LT0 Es mus with
  | nil => simp [tabulated_loop]
  | cons tp tps ih =>
      have h1 := ht tp (by simp)
      have ht' : ∀ q ∈ tps, q.2.1.length = 2 * q.1.n1.toNat ∧ q.2.2.length = 2 * q.1.n2.toNat :=
        fun q hq => ht q (by simp [hq])
      rw [List.length_cons]
      simp only [List.map_cons, List.flatten_cons, List.append_assoc]
      rw [tabulated_loop]
      simp only [bind, Except.bind, get_tab1_record_mk _ _ _ _ h1.1 h1.2]
      rw [ih _ _ _ _ ht']
      cases tps with
      | nil => simp
      | cons b l =>
          cases hlast : (b :: l).getLast? with
          | none => exact absurd (List.getLast?_eq_none_iff.mp hlast) (by simp)
          | some x => simp [hlast]

/-- C10: for any well-formed MF=4 legendre block and tabulated block with
one or more energy points, the T and LT fields of the returned dict hold
exactly the control values of the last energy point's record (they are
overwritten on every iteration), while the accumulated E, coefficient and
table lists carry only the per-point data, so earlier points' T and LT
values appear nowhere in the result. -/
theorem c10_mf4_T_LT_from_last_point
    (t2 : CtrlItems) (regions : List ℚ) (pts : List (CtrlItems × List ℚ)) (rest : List SrcLine)
    (t2' : CtrlItems) (regions' : List ℚ) (tps : List (CtrlItems × List ℚ × List ℚ))
    (rest' : List SrcLine)
    (hr : regions.length = 2 * t2.n1.toNat) (hn : t2.n2 = (pts.length : ℤ))
    (hv : ∀ pt ∈ pts, pt.2.length = pt.1.n1.toNat)
    (hr' : regions'.length = 2 * t2'.n1.toNat) (hn' : t2'.n2 = (tps.length : ℤ))
    (ht : ∀ tp ∈ tps, tp.2.1.length = 2 * tp.1.n1.toNat ∧ tp.2.2.length = 2 * tp.1.n2.toNat) :
    legendre_data (mk_tab2_record t2 regions ++
        ((pts.map fun pt => mk_list_record pt.1 pt.2).flatten ++ rest)) =
      .ok ({ E_int := regions,
             T := pts.getLast?.map fun pt => pt.1.c1,
             LT := pts.getLast?.map fun pt => pt.1.l1,
             E := pts.map fun pt => pt.1.c2,
             a_l := pts.map fun pt => pt.2 }, rest)
    ∧ tabulated_data (mk_tab2_record t2' regions' ++
        ((tps.map fun tp => mk_tab1_record tp.1 tp.2.1 tp.2.2).flatten ++ rest')) =
      .ok ({ E_int := regions',
             T := tps.getLast?.map fun tp => tp.1.c1,
             LT := tps.getLast?.map fun tp => tp.1.l1,
             E := tps.map fun tp => tp.1.c2,
             mu := tps.map fun tp => tab1_of tp.1 tp.2.1 tp.2.2 }, rest') := by
  constructor
  · rw [legendre_data]
    simp only [bind, Except.bind, get_tab2_record_mk t2 regions _ hr, hn, Int.toNat_natCast]
    rw [legendre_loop_blocks pts rest none none [] [] hv]
    cases hlast : pts.getLast? <;> simp [hlast]
  · rw [tabulated_data]
    simp only [bind, Except.bind, get_tab2_record_mk t2' regions' _ hr', hn', Int.toNat_natCast]
    rw [tabulated_loop_blocks tps rest' none none [] [] ht]
    cases hlast : tps.getLast? <;> simp [hlast]

/-- C10 witness: with two energy points carrying distinct temperatures and
flags, both blocks report the second point's T=600 and LT=13, not the
first point's T=300 and LT=11. -/
theorem c10_witness :
    legendre_data (mk_tab2_record ⟨0, 0, 0, 0, 1, 2⟩ [2, 1] ++
        (([(⟨300, 1, 11, 0, 2, 0⟩, ([7, 8] : List ℚ)),
           (⟨600, 2, 13, 0, 2, 0⟩, [9, 10])].map fun pt =>
             mk_list_record pt.1 pt.2).flatten ++ [])) =
      .ok ({ E_int := [2, 1], T := some 600, LT := some 13, E := [1, 2],
             a_l := [[7, 8], [9, 10]] }, [])
    ∧ tabulated_data (mk_tab2_record ⟨0, 0, 0, 0, 0, 2⟩ [] ++
        (([(⟨300, 1, 11, 0, 0, 0⟩, ([] : List ℚ), ([] : List ℚ)),
           (⟨600, 2, 13, 0, 0, 0⟩, [], [])].map fun tp =>
             mk_tab1_record tp.1 tp.2.1 tp.2.2).flatten ++ [])) =
      .ok ({ E_int := [], T := some 600, LT := some 13, E := [1, 2],
             mu := [tab1_of ⟨300, 1, 11, 0, 0, 0⟩ [] [],
                    tab1_of ⟨600, 2, 13, 0, 0, 0⟩ [] []] }, []) := by
  have h := c10_mf4_T_LT_from_last_point ⟨0, 0, 0, 0, 1, 2⟩ [2, 1]
      [(⟨300, 1, 11, 0, 2, 0⟩, [7, 8]), (⟨600, 2, 13, 0, 2, 0⟩, [9, 10])] []
      ⟨0, 0, 0, 0, 0, 2⟩ []
      [(⟨300, 1, 11, 0, 0, 0⟩, [], []), (⟨600, 2, 13, 0, 0, 0⟩, [], [])] []
      (by decide) (by decide) (by decide) (by decide) (by decide) (by decide)
  simpa using h
